import Mathlib

/-!
Verification development for `ankimorphs/settings_dialog.py`: a shallow
embedding of the AnkiMorphs settings dialog.

Modelling conventions:
* Qt widgets become plain data: a `QComboBox` is its item list plus the
  current index (`itemText` on an invalid index yields `""`, as in Qt);
  a `QCheckBox` is a `Bool`; line edits, key-sequence edits and table
  items are `String`s; a spin box is a `Nat`.
* The dialog's tables become lists of per-row widget records.
* Host collaborators (note-type catalog, morphemizer registry,
  frequency-file listing) become an explicit `Env` record.
* Modal confirmation dialogs return synchronously, so each gated
  operation takes the user's yes/no answer as a `Bool` argument.
* `json.dumps` / `json.loads` round-trip the tag list exactly, so the
  tags table cell stores the `List String` directly.
* Python's `len(new_filters) - 1` can be `-1`, so that comparison is
  carried out over `Int`.
-/

namespace AnkiMorphs

/-- A combo box: its items and the current index. -/
structure QComboBox where
  items : List String
  currentIndex : Nat
deriving Repr, DecidableEq, Inhabited

/-- `QComboBox.itemText`: the text at an index, `""` when out of range. -/
def QComboBox.itemText (c : QComboBox) (i : Nat) : String :=
  c.items.getD i ""

/-- A note type's name and id, as in `anki.models.NotetypeNameId`. -/
structure NotetypeNameId where
  name : String
  id : Nat
deriving Repr, DecidableEq, Inhabited

/-- A morphemizer as used by the dialog: `get_description` and `get_name`. -/
structure Morphemizer where
  description : String
  name : String
deriving Repr, DecidableEq, Inhabited

/-- Host-provided environment: the note-type catalog (`mw.col.models`),
the per-note-type field names (`field_map`, keyed by note-type id), the
morphemizer registry, and the discovered frequency files. -/
structure Env where
  models : List NotetypeNameId
  field_map : Nat → List String
  morphemizers : List Morphemizer
  frequency_files : List String

/-- One filter record of the configuration, with the attributes the
dialog reads (`AnkiMorphsConfigFilter` lives in `config.py`, outside this
file; its dialog-visible attributes are fixed by their uses in
`settings_dialog.py` and by the spec's data model:
note-type identity, tag list, source field, tokenizer choice,
frequency-priority source, read/modify flags, and four extra-field
output-field choices). -/
structure AnkiMorphsConfigFilter where
  note_type : String
  tags : List String
  field : String
  morphemizer_description : String
  morph_priority : String
  read : Bool
  modify : Bool
  unknowns_field : String
  unknowns_count_field : String
  highlighted_field : String
  difficulty_field : String
deriving Repr, DecidableEq, Inhabited

/-- The configuration snapshot (`AnkiMorphsConfig` lives in `config.py`,
outside this file; its dialog-visible attributes are fixed by their uses
in `settings_dialog.py` and by the spec's data model: a list of filter
records plus scalar tag / shortcut / recalc / parse / skip settings). -/
structure AnkiMorphsConfig where
  filters : List AnkiMorphsConfigFilter
  tag_ready : String
  tag_not_ready : String
  tag_known_automatically : String
  tag_known_manually : String
  tag_learn_card_now : String
  shortcut_recalc : String
  shortcut_settings : String
  shortcut_browse_ready_same_unknown : String
  shortcut_browse_all_same_unknown : String
  shortcut_set_known_and_skip : String
  shortcut_learn_now : String
  shortcut_view_morphemes : String
  recalc_interval_for_known : Nat
  recalc_on_sync : Bool
  recalc_suspend_known_new_cards : Bool
  parse_ignore_bracket_contents : Bool
  parse_ignore_round_bracket_contents : Bool
  parse_ignore_slim_round_bracket_contents : Bool
  parse_ignore_names_morphemizer : Bool
  parse_ignore_names_textfile : Bool
  parse_ignore_suspended_cards_content : Bool
  skip_only_known_morphs_cards : Bool
  skip_unknown_morph_seen_today_cards : Bool
  skip_show_num_of_skipped_cards : Bool
deriving Repr, DecidableEq, Inhabited

/-- The dictionary `_save_to_config` builds per row (`FilterTypeAlias`):
the filter attributes together with the derived index/id/name keys. -/
structure FilterTypeAlias where
  note_type : String
  note_type_id : Nat
  tags : List String
  field : String
  field_index : Nat
  morphemizer_description : String
  morphemizer_name : String
  morph_priority : String
  morph_priority_index : Nat
  read : Bool
  modify : Bool
  unknowns_field : String
  unknowns_field_index : Nat
  unknowns_count_field : String
  unknowns_count_field_index : Nat
  highlighted_field : String
  highlighted_field_index : Nat
  difficulty_field : String
  difficulty_field_index : Nat
deriving Repr, DecidableEq, Inhabited

/-- Forgetting the derived keys of a saved filter dictionary gives back a
configuration filter record. -/
def FilterTypeAlias.toConfigFilter (f : FilterTypeAlias) : AnkiMorphsConfigFilter :=
  { note_type := f.note_type
    tags := f.tags
    field := f.field
    morphemizer_description := f.morphemizer_description
    morph_priority := f.morph_priority
    read := f.read
    modify := f.modify
    unknowns_field := f.unknowns_field
    unknowns_count_field := f.unknowns_count_field
    highlighted_field := f.highlighted_field
    difficulty_field := f.difficulty_field }

/-- Modelled from the spec: the helper `get_combobox_index` of
`table_utils.py` is not part of this file; every call site passes a
collection of display strings and a sought string and uses the result as
the position to select in a combo box populated with those strings, so it
is the position of the first occurrence of the string, `none` when
absent. -/
def get_combobox_index : List String → String → Option Nat
  | [], _ => none
  | item :: items, text =>
    if item = text then some 0
    else (get_combobox_index items text).map (· + 1)

/-- `_get_model_combobox_index(items, filter_field)`: the index of the
first note type whose name is `filter_field`, `None` when absent. -/
def get_model_combobox_index : List NotetypeNameId → String → Option Nat
  | [], _ => none
  | model :: models, filter_field =>
    if model.name = filter_field then some 0
    else (get_model_combobox_index models filter_field).map (· + 1)

/-- One row of the note-filters table: the widgets
`_set_note_filters_table_row` installs in its seven columns. The tags
cell is a `QTableWidgetItem` holding `json.dumps` of the tag list; since
`_save_to_config` reads it back through `json.loads`, the cell is
modelled as the tag list itself. -/
structure NoteFilterRow where
  note_type_cbox : QComboBox
  tags_item : List String
  field_cbox : QComboBox
  morphemizer_cbox : QComboBox
  morph_priority_cbox : QComboBox
  read_checkbox : Bool
  modify_checkbox : Bool
deriving Repr, DecidableEq, Inhabited

/-- One row of the extra-fields table: the note-type text item and the
four extra-field combo boxes `_set_extra_fields_table_row` installs. -/
structure ExtraFieldsRow where
  note_type_item : String
  unknowns_cbox : QComboBox
  unknowns_count_cbox : QComboBox
  highlighted_cbox : QComboBox
  difficulty_cbox : QComboBox
deriving Repr, DecidableEq, Inhabited

/-- `_set_note_filters_table_row(row, config_filter)`: build the widgets
of one note-filters row from a configuration filter. A freshly populated
`QComboBox` sits at index 0; `setCurrentIndex` is only called when the
sought entry was found, hence the `Option.getD _ 0` on each lookup. The
morph-priority box gets `"Collection frequency"` prepended to the
frequency files, and a found index is shifted by one to compensate. -/
def set_note_filters_table_row (env : Env) (config_filter : AnkiMorphsConfigFilter) :
    NoteFilterRow :=
  let note_type_index := (get_model_combobox_index env.models config_filter.note_type).getD 0
  let note_type_cbox : QComboBox :=
    { items := env.models.map (·.name), currentIndex := note_type_index }
  let current_model_id := (env.models.getD note_type_index default).id
  let fields := env.field_map current_model_id
  let field_cbox : QComboBox :=
    { items := fields, currentIndex := (get_combobox_index fields config_filter.field).getD 0 }
  let morphemizers := env.morphemizers.map (·.description)
  let morphemizer_cbox : QComboBox :=
    { items := morphemizers
      currentIndex := (get_combobox_index morphemizers config_filter.morphemizer_description).getD 0 }
  let morph_priority_cbox : QComboBox :=
    { items := "Collection frequency" :: env.frequency_files
      currentIndex :=
        ((get_combobox_index env.frequency_files config_filter.morph_priority).map
          (· + 1)).getD 0 }
  { note_type_cbox := note_type_cbox
    tags_item := config_filter.tags
    field_cbox := field_cbox
    morphemizer_cbox := morphemizer_cbox
    morph_priority_cbox := morph_priority_cbox
    read_checkbox := config_filter.read
    modify_checkbox := config_filter.modify }

/-- `_setup_note_filters_table(config_filters)`: the table gets exactly
one row per configuration filter (`setRowCount` then a per-row setup). -/
def setup_note_filters_table (env : Env) (config_filters : List AnkiMorphsConfigFilter) :
    List NoteFilterRow :=
  config_filters.map (set_note_filters_table_row env)

/-- `create_extra_field_cbox(fields)`: a combo box holding `"(none)"`
followed by the note type's field names, initially at index 0. -/
def create_extra_field_cbox (fields : List String) : QComboBox :=
  { items := "(none)" :: fields, currentIndex := 0 }

/-- `set_extra_field_cbox_index(cbox, fields, cbox_filter_field)`: select
the sought field, shifted by one past the prepended `"(none)"`; when the
field is not among the note type's fields the box stays at `"(none)"`. -/
def set_extra_field_cbox_index (cbox : QComboBox) (fields : List String)
    (cbox_filter_field : String) : QComboBox :=
  match get_combobox_index fields cbox_filter_field with
  | some i => { cbox with currentIndex := i + 1 }
  | none => cbox

/-- `_set_extra_fields_table_row(row, config_filters)`: read the row's
note type from the note-filters table, look up its fields, find the first
configuration filter naming that note type, and build the four
extra-field combo boxes (left at `"(none)"` when no filter matches). -/
def set_extra_fields_table_row (env : Env) (nf_row : NoteFilterRow)
    (config_filters : List AnkiMorphsConfigFilter) : ExtraFieldsRow :=
  let note_type_text := nf_row.note_type_cbox.itemText nf_row.note_type_cbox.currentIndex
  let current_model_id := (env.models.getD nf_row.note_type_cbox.currentIndex default).id
  let fields := env.field_map current_model_id
  let matching_filter := config_filters.find? fun cf => note_type_text = cf.note_type
  let unknowns_cbox := create_extra_field_cbox fields
  let unknowns_count_cbox := create_extra_field_cbox fields
  let highlighted_cbox := create_extra_field_cbox fields
  let difficulty_cbox := create_extra_field_cbox fields
  match matching_filter with
  | none =>
    { note_type_item := note_type_text
      unknowns_cbox := unknowns_cbox
      unknowns_count_cbox := unknowns_count_cbox
      highlighted_cbox := highlighted_cbox
      difficulty_cbox := difficulty_cbox }
  | some mf =>
    { note_type_item := note_type_text
      unknowns_cbox := set_extra_field_cbox_index unknowns_cbox fields mf.unknowns_field
      unknowns_count_cbox := set_extra_field_cbox_index unknowns_count_cbox fields mf.unknowns_count_field
      highlighted_cbox := set_extra_field_cbox_index highlighted_cbox fields mf.highlighted_field
      difficulty_cbox := set_extra_field_cbox_index difficulty_cbox fields mf.difficulty_field }

/-- `_setup_extra_fields_table(config_filters)`: the extra-fields table
gets exactly one row per note-filters table row, each built by
`_set_extra_fields_table_row`. -/
def setup_extra_fields_table (env : Env) (note_filters_table : List NoteFilterRow)
    (config_filters : List AnkiMorphsConfigFilter) : List ExtraFieldsRow :=
  note_filters_table.map fun r => set_extra_fields_table_row env r config_filters

/-- The inner comparison loop of `_extra_fields_changed`: iterate over the
old (stored) filters with their index, break as soon as the index runs past
the end of the new filter list (Python computes `len(new_filters) - 1`,
which can be `-1`, hence the `Int` comparison), and return `True` on the
first of the three compared extra fields that differs from the stored value
and is not `"(none)"`. -/
def extraFieldsChangedLoop (new_filters : List FilterTypeAlias) :
    Nat → List AnkiMorphsConfigFilter → Bool
  | _, [] => false
  | index, old_filter :: rest =>
    if (new_filters.length : Int) - 1 < (index : Int) then
      false
    else
      let nf := new_filters.getD index default
      if nf.unknowns_field ≠ old_filter.unknowns_field ∧ nf.unknowns_field ≠ "(none)" then
        true
      else if nf.highlighted_field ≠ old_filter.highlighted_field ∧ nf.highlighted_field ≠ "(none)" then
        true
      else if nf.difficulty_field ≠ old_filter.difficulty_field ∧ nf.difficulty_field ≠ "(none)" then
        true
      else
        extraFieldsChangedLoop new_filters (index + 1) rest

/-- `_extra_fields_changed(self, new_filters)`: `self._config.filters` is
passed explicitly as `old_filters`. The activity scan ranges over
`unknowns_field`, `highlighted_field` and `difficulty_field` only (the
source's local `extra_fields` list), and returns `False` outright when
every such field of every new filter is `"(none)"`. -/
def extra_fields_changed (old_filters : List AnkiMorphsConfigFilter)
    (new_filters : List FilterTypeAlias) : Bool :=
  let has_active_extra_fields := new_filters.any fun f =>
    f.unknowns_field ≠ "(none)" ∨ f.highlighted_field ≠ "(none)" ∨ f.difficulty_field ≠ "(none)"
  if ¬has_active_extra_fields then
    false
  else
    extraFieldsChangedLoop new_filters 0 old_filters

/-- The dialog's widget state: the two tables (plus the note-filters
table's current-row index, `-1` when nothing is selected, as in Qt), the
widgets of the tags / parse / shortcuts / recalc / skip tabs, and the two
configuration copies the dialog holds (`self._config`, the working copy
loaded at open, and `self._default_config`, the read-only defaults). -/
structure DialogState where
  note_filters_table : List NoteFilterRow
  note_filters_current_row : Int
  extra_fields_table : List ExtraFieldsRow
  tagReadyLineEdit : String
  tagNotReadyLineEdit : String
  tagKnownAutomaticallyLineEdit : String
  tagKnownManuallyLineEdit : String
  tagLearnCardNowLineEdit : String
  parseIgnoreSquareCheckBox : Bool
  parseIgnoreRoundCheckBox : Bool
  parseIgnoreSlimCheckBox : Bool
  parseIgnoreNamesMizerCheckBox : Bool
  parseIgnoreNamesFileCheckBox : Bool
  parseIgnoreSuspendedCheckBox : Bool
  shortcutRecalcKeySequenceEdit : String
  shortcutSettingsKeySequenceEdit : String
  shortcutBrowseReadyKeySequenceEdit : String
  shortcutBrowseAllKeySequenceEdit : String
  shortcutKnownAndSkipKeySequenceEdit : String
  shortcutLearnNowKeySequenceEdit : String
  shortcutViewMorphsKeySequenceEdit : String
  recalcIntervalSpinBox : Nat
  recalcBeforeSyncCheckBox : Bool
  recalcSuspendKnownCheckBox : Bool
  skipKnownCheckBox : Bool
  skipAlreadySeenCheckBox : Bool
  skipNotificationsCheckBox : Bool
  config : AnkiMorphsConfig
  default_config : AnkiMorphsConfig
deriving DecidableEq, Inhabited

/-- `SettingsDialog.__init__`: load both tables and every tab from the
working configuration copy (`_setup_note_filters_table`,
`_setup_extra_fields_table`, `_populate_tags_tab`, `_populate_parse_tab`,
`_populate_skip_tab`, `_populate_shortcuts_tab`, `_populate_recalc_tab`).
A fresh table has no selected row, so the current row is `-1`. -/
def dialog_init (env : Env) (config default_config : AnkiMorphsConfig) : DialogState :=
  let nf := setup_note_filters_table env config.filters
  { note_filters_table := nf
    note_filters_current_row := -1
    extra_fields_table := setup_extra_fields_table env nf config.filters
    tagReadyLineEdit := config.tag_ready
    tagNotReadyLineEdit := config.tag_not_ready
    tagKnownAutomaticallyLineEdit := config.tag_known_automatically
    tagKnownManuallyLineEdit := config.tag_known_manually
    tagLearnCardNowLineEdit := config.tag_learn_card_now
    parseIgnoreSquareCheckBox := config.parse_ignore_bracket_contents
    parseIgnoreRoundCheckBox := config.parse_ignore_round_bracket_contents
    parseIgnoreSlimCheckBox := config.parse_ignore_slim_round_bracket_contents
    parseIgnoreNamesMizerCheckBox := config.parse_ignore_names_morphemizer
    parseIgnoreNamesFileCheckBox := config.parse_ignore_names_textfile
    parseIgnoreSuspendedCheckBox := config.parse_ignore_suspended_cards_content
    shortcutRecalcKeySequenceEdit := config.shortcut_recalc
    shortcutSettingsKeySequenceEdit := config.shortcut_settings
    shortcutBrowseReadyKeySequenceEdit := config.shortcut_browse_ready_same_unknown
    shortcutBrowseAllKeySequenceEdit := config.shortcut_browse_all_same_unknown
    shortcutKnownAndSkipKeySequenceEdit := config.shortcut_set_known_and_skip
    shortcutLearnNowKeySequenceEdit := config.shortcut_learn_now
    shortcutViewMorphsKeySequenceEdit := config.shortcut_view_morphemes
    recalcIntervalSpinBox := config.recalc_interval_for_known
    recalcBeforeSyncCheckBox := config.recalc_on_sync
    recalcSuspendKnownCheckBox := config.recalc_suspend_known_new_cards
    skipKnownCheckBox := config.skip_only_known_morphs_cards
    skipAlreadySeenCheckBox := config.skip_unknown_morph_seen_today_cards
    skipNotificationsCheckBox := config.skip_show_num_of_skipped_cards
    config := config
    default_config := default_config }

/-- `_restore_tags_defaults(skip_confirmation)`: unless the confirmation
is skipped, a declined dialog aborts; otherwise the five tag line edits
are overwritten from the default configuration. -/
def restore_tags_defaults (s : DialogState) (skip_confirmation confirmed : Bool) :
    DialogState :=
  if !skip_confirmation && !confirmed then s
  else
    { s with
      tagReadyLineEdit := s.default_config.tag_ready
      tagNotReadyLineEdit := s.default_config.tag_not_ready
      tagKnownAutomaticallyLineEdit := s.default_config.tag_known_automatically
      tagKnownManuallyLineEdit := s.default_config.tag_known_manually
      tagLearnCardNowLineEdit := s.default_config.tag_learn_card_now }

/-- `_restore_parse_defaults(skip_confirmation)`: same gating; the six
parse checkboxes are overwritten from the default configuration. -/
def restore_parse_defaults (s : DialogState) (skip_confirmation confirmed : Bool) :
    DialogState :=
  if !skip_confirmation && !confirmed then s
  else
    { s with
      parseIgnoreSquareCheckBox := s.default_config.parse_ignore_bracket_contents
      parseIgnoreRoundCheckBox := s.default_config.parse_ignore_round_bracket_contents
      parseIgnoreSlimCheckBox := s.default_config.parse_ignore_slim_round_bracket_contents
      parseIgnoreNamesMizerCheckBox := s.default_config.parse_ignore_names_morphemizer
      parseIgnoreNamesFileCheckBox := s.default_config.parse_ignore_names_textfile
      parseIgnoreSuspendedCheckBox := s.default_config.parse_ignore_suspended_cards_content }

/-- `_restore_shortcuts_defaults(skip_confirmation)`: same gating; the
seven shortcut key-sequence edits are overwritten from the defaults. -/
def restore_shortcuts_defaults (s : DialogState) (skip_confirmation confirmed : Bool) :
    DialogState :=
  if !skip_confirmation && !confirmed then s
  else
    { s with
      shortcutRecalcKeySequenceEdit := s.default_config.shortcut_recalc
      shortcutSettingsKeySequenceEdit := s.default_config.shortcut_settings
      shortcutBrowseReadyKeySequenceEdit := s.default_config.shortcut_browse_ready_same_unknown
      shortcutBrowseAllKeySequenceEdit := s.default_config.shortcut_browse_all_same_unknown
      shortcutKnownAndSkipKeySequenceEdit := s.default_config.shortcut_set_known_and_skip
      shortcutLearnNowKeySequenceEdit := s.default_config.shortcut_learn_now
      shortcutViewMorphsKeySequenceEdit := s.default_config.shortcut_view_morphemes }

/-- `_restore_recalc_defaults(skip_confirmation)`: same gating; the
recalc spin box and two checkboxes are overwritten from the defaults. -/
def restore_recalc_defaults (s : DialogState) (skip_confirmation confirmed : Bool) :
    DialogState :=
  if !skip_confirmation && !confirmed then s
  else
    { s with
      recalcIntervalSpinBox := s.default_config.recalc_interval_for_known
      recalcBeforeSyncCheckBox := s.default_config.recalc_on_sync
      recalcSuspendKnownCheckBox := s.default_config.recalc_suspend_known_new_cards }

/-- `_restore_skip_defaults(skip_confirmation)`: same gating; the three
skip checkboxes are overwritten from the defaults. -/
def restore_skip_defaults (s : DialogState) (skip_confirmation confirmed : Bool) :
    DialogState :=
  if !skip_confirmation && !confirmed then s
  else
    { s with
      skipKnownCheckBox := s.default_config.skip_only_known_morphs_cards
      skipAlreadySeenCheckBox := s.default_config.skip_unknown_morph_seen_today_cards
      skipNotificationsCheckBox := s.default_config.skip_show_num_of_skipped_cards }

/-- `_restore_all_defaults`: after one confirmation, rebuild both tables
from the default filters and run every per-section restore with
`skip_confirmation=True`; a declined dialog leaves everything alone. -/
def restore_all_defaults (env : Env) (s : DialogState) (confirmed : Bool) : DialogState :=
  if confirmed then
    let default_filters := s.default_config.filters
    let nf := setup_note_filters_table env default_filters
    let s1 :=
      { s with
        note_filters_table := nf
        extra_fields_table := setup_extra_fields_table env nf default_filters }
    restore_shortcuts_defaults
      (restore_recalc_defaults
        (restore_skip_defaults
          (restore_parse_defaults (restore_tags_defaults s1 true false) true false)
          true false)
        true false)
      true false
  else s

/-- `QTableWidget.removeRow(row)`: Qt ignores an out-of-range row (in
particular the `-1` that `currentRow` yields with no selection) and
otherwise deletes exactly that row. -/
def removeRow (rows : List NoteFilterRow) (row : Int) : List NoteFilterRow :=
  if row < 0 ∨ (rows.length : Int) ≤ row then rows
  else rows.take row.toNat ++ rows.drop (row.toNat + 1)

/-- `_delete_row`: after a confirmed warning dialog, remove the
note-filters table's current row; a declined dialog changes nothing. -/
def delete_row (s : DialogState) (confirmed : Bool) : DialogState :=
  if confirmed then
    { s with note_filters_table := removeRow s.note_filters_table s.note_filters_current_row }
  else s

/-- `_add_new_row`: grow the note-filters table by one row (`setRowCount`
appends it), fill the new last row from the first default filter record,
then rebuild the extra-fields table from the working configuration's
filters. Python's `self._default_config.filters[0]` presumes a nonempty
default filter list; the model reads it with `getD 0`. -/
def add_new_row (env : Env) (s : DialogState) : DialogState :=
  let config_filter := s.default_config.filters.getD 0 default
  let nf := s.note_filters_table ++ [set_note_filters_table_row env config_filter]
  { s with
    note_filters_table := nf
    extra_fields_table := setup_extra_fields_table env nf s.config.filters }

/-- `_update_fields_cbox(field_cbox, note_type_cbox)`: clear the field
combo box and repopulate it with the field names of the note type the
note-type combo box currently selects (the old contents are discarded;
a freshly repopulated box sits at index 0). -/
def update_fields_cbox (env : Env) (note_type_cbox : QComboBox) : QComboBox :=
  let current_model_id := (env.models.getD note_type_cbox.currentIndex default).id
  { items := env.field_map current_model_id, currentIndex := 0 }

/-- A user picking entry `j` in a row's note-type combo box: the
`currentIndexChanged` signal runs `_update_fields_cbox` on the row's
field combo box. -/
def change_note_type_selection (env : Env) (r : NoteFilterRow) (j : Nat) : NoteFilterRow :=
  let ntc := { r.note_type_cbox with currentIndex := j }
  { r with note_type_cbox := ntc, field_cbox := update_fields_cbox env ntc }

/-- The per-row invariant behind the dependent-widget wiring: a
note-filters row's field combo box offers exactly the field names of the
note type its note-type combo box selects. -/
def row_fields_consistent (env : Env) (r : NoteFilterRow) : Prop :=
  r.field_cbox.items = env.field_map (env.models.getD r.note_type_cbox.currentIndex default).id

/-- The full dictionary `_save_to_config` hands to `update_configs`:
every scalar widget value plus the per-row filter dictionaries. -/
structure NewConfigData where
  tag_ready : String
  tag_not_ready : String
  tag_known_automatically : String
  tag_known_manually : String
  tag_learn_card_now : String
  shortcut_recalc : String
  shortcut_settings : String
  shortcut_browse_ready_same_unknown : String
  shortcut_browse_all_same_unknown : String
  shortcut_set_known_and_skip : String
  shortcut_learn_now : String
  shortcut_view_morphemes : String
  recalc_interval_for_known : Nat
  recalc_on_sync : Bool
  recalc_suspend_known_new_cards : Bool
  parse_ignore_bracket_contents : Bool
  parse_ignore_round_bracket_contents : Bool
  parse_ignore_slim_round_bracket_contents : Bool
  parse_ignore_names_morphemizer : Bool
  parse_ignore_names_textfile : Bool
  parse_ignore_suspended_cards_content : Bool
  skip_only_known_morphs_cards : Bool
  skip_unknown_morph_seen_today_cards : Bool
  skip_show_num_of_skipped_cards : Bool
  filters : List FilterTypeAlias
deriving DecidableEq, Inhabited

/-- Reading a saved dictionary back as a configuration snapshot: the
keys of the dictionary that name snapshot attributes, with the derived
per-filter keys forgotten. -/
def NewConfigData.toSnapshot (nc : NewConfigData) : AnkiMorphsConfig :=
  { filters := nc.filters.map FilterTypeAlias.toConfigFilter
    tag_ready := nc.tag_ready
    tag_not_ready := nc.tag_not_ready
    tag_known_automatically := nc.tag_known_automatically
    tag_known_manually := nc.tag_known_manually
    tag_learn_card_now := nc.tag_learn_card_now
    shortcut_recalc := nc.shortcut_recalc
    shortcut_settings := nc.shortcut_settings
    shortcut_browse_ready_same_unknown := nc.shortcut_browse_ready_same_unknown
    shortcut_browse_all_same_unknown := nc.shortcut_browse_all_same_unknown
    shortcut_set_known_and_skip := nc.shortcut_set_known_and_skip
    shortcut_learn_now := nc.shortcut_learn_now
    shortcut_view_morphemes := nc.shortcut_view_morphemes
    recalc_interval_for_known := nc.recalc_interval_for_known
    recalc_on_sync := nc.recalc_on_sync
    recalc_suspend_known_new_cards := nc.recalc_suspend_known_new_cards
    parse_ignore_bracket_contents := nc.parse_ignore_bracket_contents
    parse_ignore_round_bracket_contents := nc.parse_ignore_round_bracket_contents
    parse_ignore_slim_round_bracket_contents := nc.parse_ignore_slim_round_bracket_contents
    parse_ignore_names_morphemizer := nc.parse_ignore_names_morphemizer
    parse_ignore_names_textfile := nc.parse_ignore_names_textfile
    parse_ignore_suspended_cards_content := nc.parse_ignore_suspended_cards_content
    skip_only_known_morphs_cards := nc.skip_only_known_morphs_cards
    skip_unknown_morph_seen_today_cards := nc.skip_unknown_morph_seen_today_cards
    skip_show_num_of_skipped_cards := nc.skip_show_num_of_skipped_cards }

/-- The `_filter` dictionary `_save_to_config` builds for one row: the
current texts and indices of the row's widgets in both tables, the model
id from the catalog, and the morphemizer's internal name. -/
def read_filter_row (env : Env) (nf : NoteFilterRow) (ef : ExtraFieldsRow) :
    FilterTypeAlias :=
  { note_type := nf.note_type_cbox.itemText nf.note_type_cbox.currentIndex
    note_type_id := (env.models.getD nf.note_type_cbox.currentIndex default).id
    tags := nf.tags_item
    field := nf.field_cbox.itemText nf.field_cbox.currentIndex
    field_index := nf.field_cbox.currentIndex
    morphemizer_description := nf.morphemizer_cbox.itemText nf.morphemizer_cbox.currentIndex
    morphemizer_name := (env.morphemizers.getD nf.morphemizer_cbox.currentIndex default).name
    morph_priority := nf.morph_priority_cbox.itemText nf.morph_priority_cbox.currentIndex
    morph_priority_index := nf.morph_priority_cbox.currentIndex
    read := nf.read_checkbox
    modify := nf.modify_checkbox
    unknowns_field := ef.unknowns_cbox.itemText ef.unknowns_cbox.currentIndex
    unknowns_field_index := ef.unknowns_cbox.currentIndex
    unknowns_count_field := ef.unknowns_count_cbox.itemText ef.unknowns_count_cbox.currentIndex
    unknowns_count_field_index := ef.unknowns_count_cbox.currentIndex
    highlighted_field := ef.highlighted_cbox.itemText ef.highlighted_cbox.currentIndex
    highlighted_field_index := ef.highlighted_cbox.currentIndex
    difficulty_field := ef.difficulty_cbox.itemText ef.difficulty_cbox.currentIndex
    difficulty_field_index := ef.difficulty_cbox.currentIndex }

/-- The `new_config` dictionary `_save_to_config` assembles before the
extra-fields check: every scalar from its tab's widget, and one filter
dictionary per row of the note-filters table, read jointly with the
extra-fields table row of the same index. -/
def build_new_config (env : Env) (s : DialogState) : NewConfigData :=
  { tag_ready := s.tagReadyLineEdit
    tag_not_ready := s.tagNotReadyLineEdit
    tag_known_automatically := s.tagKnownAutomaticallyLineEdit
    tag_known_manually := s.tagKnownManuallyLineEdit
    tag_learn_card_now := s.tagLearnCardNowLineEdit
    shortcut_recalc := s.shortcutRecalcKeySequenceEdit
    shortcut_settings := s.shortcutSettingsKeySequenceEdit
    shortcut_browse_ready_same_unknown := s.shortcutBrowseReadyKeySequenceEdit
    shortcut_browse_all_same_unknown := s.shortcutBrowseAllKeySequenceEdit
    shortcut_set_known_and_skip := s.shortcutKnownAndSkipKeySequenceEdit
    shortcut_learn_now := s.shortcutLearnNowKeySequenceEdit
    shortcut_view_morphemes := s.shortcutViewMorphsKeySequenceEdit
    recalc_interval_for_known := s.recalcIntervalSpinBox
    recalc_on_sync := s.recalcBeforeSyncCheckBox
    recalc_suspend_known_new_cards := s.recalcSuspendKnownCheckBox
    parse_ignore_bracket_contents := s.parseIgnoreSquareCheckBox
    parse_ignore_round_bracket_contents := s.parseIgnoreRoundCheckBox
    parse_ignore_slim_round_bracket_contents := s.parseIgnoreSlimCheckBox
    parse_ignore_names_morphemizer := s.parseIgnoreNamesMizerCheckBox
    parse_ignore_names_textfile := s.parseIgnoreNamesFileCheckBox
    parse_ignore_suspended_cards_content := s.parseIgnoreSuspendedCheckBox
    skip_only_known_morphs_cards := s.skipKnownCheckBox
    skip_unknown_morph_seen_today_cards := s.skipAlreadySeenCheckBox
    skip_show_num_of_skipped_cards := s.skipNotificationsCheckBox
    filters := (s.note_filters_table.zip s.extra_fields_table).map fun p =>
      read_filter_row env p.1 p.2 }

/-- `_save_to_config`: assemble the new configuration from the widgets;
when `_extra_fields_changed` holds, raise the destructive-change warning
dialog, and a declined answer returns before `update_configs` — `none`
models that no write to the persistent store happens. Otherwise (or on an
accepted warning) the assembled configuration is handed to
`update_configs`. -/
def save_to_config (env : Env) (s : DialogState) (warning_accepted : Bool) :
    Option NewConfigData :=
  let new_config := build_new_config env s
  if extra_fields_changed s.config.filters new_config.filters then
    if warning_accepted then some new_config else none
  else some new_config

/-- A row of the new filter list differs from a stored filter record in
one of the three extra-field columns that `_extra_fields_changed`
compares, with the new selection not `"(none)"`. -/
def extra_fields_row_differs (nf : FilterTypeAlias) (old : AnkiMorphsConfigFilter) : Prop :=
  (nf.unknowns_field ≠ old.unknowns_field ∧ nf.unknowns_field ≠ "(none)") ∨
  (nf.highlighted_field ≠ old.highlighted_field ∧ nf.highlighted_field ≠ "(none)") ∨
  (nf.difficulty_field ≠ old.difficulty_field ∧ nf.difficulty_field ≠ "(none)")

instance (nf : FilterTypeAlias) (old : AnkiMorphsConfigFilter) :
    Decidable (extra_fields_row_differs nf old) := by
  unfold extra_fields_row_differs
  infer_instance

/-- A new filter row and a stored filter record agree on the three
extra-field columns `_extra_fields_changed` compares. -/
def three_extra_fields_agree (nf : FilterTypeAlias) (old : AnkiMorphsConfigFilter) : Prop :=
  nf.unknowns_field = old.unknowns_field ∧
  nf.highlighted_field = old.highlighted_field ∧
  nf.difficulty_field = old.difficulty_field

/-- The field names of the note type a filter record resolves to in the
catalog (index 0 when the note type is absent, as for a fresh combo
box). -/
def resolved_fields (env : Env) (cf : AnkiMorphsConfigFilter) : List String :=
  env.field_map
    ((env.models.getD ((get_model_combobox_index env.models cf.note_type).getD 0) default).id)

/-- A filter record is consistent with the host environment: its note
type resolves in the catalog, its field choice is among that note type's
fields, its morphemizer and priority choices are offered, and each
extra-field choice is `"(none)"` or one of the note type's fields. -/
def filter_env_consistent (env : Env) (cf : AnkiMorphsConfigFilter) : Prop :=
  (get_model_combobox_index env.models cf.note_type).isSome = true ∧
  cf.field ∈ resolved_fields env cf ∧
  cf.morphemizer_description ∈ env.morphemizers.map (·.description) ∧
  (cf.morph_priority = "Collection frequency" ∨ cf.morph_priority ∈ env.frequency_files) ∧
  (cf.unknowns_field = "(none)" ∨ cf.unknowns_field ∈ resolved_fields env cf) ∧
  (cf.unknowns_count_field = "(none)" ∨ cf.unknowns_count_field ∈ resolved_fields env cf) ∧
  (cf.highlighted_field = "(none)" ∨ cf.highlighted_field ∈ resolved_fields env cf) ∧
  (cf.difficulty_field = "(none)" ∨ cf.difficulty_field ∈ resolved_fields env cf)

instance (env : Env) (cf : AnkiMorphsConfigFilter) :
    Decidable (filter_env_consistent env cf) := by
  unfold filter_env_consistent
  infer_instance

/-- A configuration snapshot is consistent with the host environment:
every filter record is, and the filters name pairwise distinct note
types (the extra-fields table matches rows to filters by note-type
name). -/
def config_env_consistent (env : Env) (config : AnkiMorphsConfig) : Prop :=
  (∀ cf ∈ config.filters, filter_env_consistent env cf) ∧
  (config.filters.map (·.note_type)).Nodup

instance (env : Env) (config : AnkiMorphsConfig) :
    Decidable (config_env_consistent env config) := by
  unfold config_env_consistent
  infer_instance

/-- A small concrete host environment, for evaluating the model on
closed inputs. -/
def sampleEnv : Env :=
  { models := [{ name := "Basic", id := 1 }]
    field_map := fun _ => ["Front", "Back"]
    morphemizers := [{ description := "AnkiMorphs: Language w Spaces", name := "space" }]
    frequency_files := ["ja.csv"] }

/-- A concrete filter record with every extra field at `"(none)"`. -/
def sampleFilter : AnkiMorphsConfigFilter :=
  { note_type := "Basic"
    tags := ["movie"]
    field := "Front"
    morphemizer_description := "AnkiMorphs: Language w Spaces"
    morph_priority := "Collection frequency"
    read := true
    modify := true
    unknowns_field := "(none)"
    unknowns_count_field := "(none)"
    highlighted_field := "(none)"
    difficulty_field := "(none)" }

/-- A concrete configuration snapshot holding `sampleFilter`. -/
def sampleConfig : AnkiMorphsConfig :=
  { (default : AnkiMorphsConfig) with filters := [sampleFilter] }

/-- The dialog freshly opened on `sampleConfig`. -/
def sampleState : DialogState :=
  dialog_init sampleEnv sampleConfig sampleConfig

/-- `sampleState` with its only note-filters row selected. -/
def selectedRowState : DialogState :=
  { sampleState with note_filters_current_row := 0 }

/-- `sampleState` after the user moves the unknowns-count combo box of
row 0 to index 1 (the field `"Front"`), leaving everything else alone. -/
def unknownsCountChangedState : DialogState :=
  { sampleState with
    extra_fields_table := sampleState.extra_fields_table.map fun r =>
      { r with unknowns_count_cbox := { r.unknowns_count_cbox with currentIndex := 1 } } }

/-- `sampleState` after the user moves the unknowns combo box of row 0
to index 1 (the field `"Front"`), leaving everything else alone. -/
def unknownsChangedState : DialogState :=
  { sampleState with
    extra_fields_table := sampleState.extra_fields_table.map fun r =>
      { r with unknowns_cbox := { r.unknowns_cbox with currentIndex := 1 } } }

/-- A snapshot whose only filter names a note type absent from
`sampleEnv`'s catalog. -/
def missingNoteTypeConfig : AnkiMorphsConfig :=
  { (default : AnkiMorphsConfig) with
    filters := [{ sampleFilter with note_type := "Missing" }] }

/-- A consistent snapshot exercising non-trivial selections: the second
field, a frequency file as priority, and one active extra field. -/
def richConfig : AnkiMorphsConfig :=
  { (default : AnkiMorphsConfig) with
    filters := [{ sampleFilter with
      field := "Back"
      morph_priority := "ja.csv"
      highlighted_field := "Back"
      tags := ["a", "b"] }]
    tag_ready := "am-ready"
    recalc_interval_for_known := 7
    recalc_on_sync := true }

/-! ### Helper lemmas -/

theorem extraFieldsChangedLoop_nil (new_filters : List FilterTypeAlias) (index : Nat) :
    extraFieldsChangedLoop new_filters index [] = false :=
  rfl

theorem extraFieldsChangedLoop_break (new_filters : List FilterTypeAlias) (index : Nat)
    (o : AnkiMorphsConfigFilter) (rest : List AnkiMorphsConfigFilter)
    (hbreak : (new_filters.length : Int) - 1 < (index : Int)) :
    extraFieldsChangedLoop new_filters index (o :: rest) = false := by
  simp [extraFieldsChangedLoop, hbreak]

theorem extraFieldsChangedLoop_cons (new_filters : List FilterTypeAlias) (index : Nat)
    (o : AnkiMorphsConfigFilter) (rest : List AnkiMorphsConfigFilter)
    (hbreak : ¬((new_filters.length : Int) - 1 < (index : Int))) :
    extraFieldsChangedLoop new_filters index (o :: rest)
      = if extra_fields_row_differs (new_filters.getD index default) o then true
        else extraFieldsChangedLoop new_filters (index + 1) rest := by
  simp [extraFieldsChangedLoop, extra_fields_row_differs, hbreak, Bool.or_assoc]

/-! ### C9 -/

/-- C9: when every new filter's `unknowns_field`, `highlighted_field` and
`difficulty_field` equal `"(none)"`, `_extra_fields_changed` returns
`False` regardless of the stored configuration, so clearing all extra
fields never triggers the destructive-change warning. -/
theorem extra_fields_changed_all_none (old_filters : List AnkiMorphsConfigFilter)
    (new_filters : List FilterTypeAlias)
    (h : ∀ f ∈ new_filters, f.unknowns_field = "(none)" ∧ f.highlighted_field = "(none)" ∧
      f.difficulty_field = "(none)") :
    extra_fields_changed old_filters new_filters = false := by
  have hany : (new_filters.any fun f =>
      f.unknowns_field ≠ "(none)" ∨ f.highlighted_field ≠ "(none)" ∨
        f.difficulty_field ≠ "(none)") = false := by
    rw [List.any_eq_false]
    intro f hf
    obtain ⟨h1, h2, h3⟩ := h f hf
    simp [h1, h2, h3]
  simp only [extra_fields_changed]
  rw [hany]
  rfl

/-- C9 witness: the freshly opened sample dialog has every extra-field
combo box at `"(none)"`, and `_extra_fields_changed` indeed yields
`False` on its saved filters. -/
theorem extra_fields_changed_all_none_witness :
    (∀ f ∈ (build_new_config sampleEnv sampleState).filters,
      f.unknowns_field = "(none)" ∧ f.highlighted_field = "(none)" ∧
        f.difficulty_field = "(none)") ∧
    extra_fields_changed sampleConfig.filters (build_new_config sampleEnv sampleState).filters
      = false :=
  ⟨by decide, extra_fields_changed_all_none sampleConfig.filters
    (build_new_config sampleEnv sampleState).filters (by decide)⟩

/-! ### C2 -/

theorem extraFieldsChangedLoop_take (new_filters : List FilterTypeAlias) :
    ∀ (old : List AnkiMorphsConfigFilter) (index : Nat),
      extraFieldsChangedLoop new_filters index old
        = extraFieldsChangedLoop new_filters index (old.take (new_filters.length - index))
  | [], _ => by rw [List.take_nil]
  | o :: rest, index => by
    by_cases hbreak : (new_filters.length : Int) - 1 < (index : Int)
    · have hz : new_filters.length - index = 0 := by omega
      rw [hz, List.take_zero, extraFieldsChangedLoop_break _ _ _ _ hbreak,
        extraFieldsChangedLoop_nil]
    · have hs : new_filters.length - index = (new_filters.length - (index + 1)) + 1 := by
        omega
      rw [hs, List.take_succ_cons, extraFieldsChangedLoop_cons _ _ _ _ hbreak,
        extraFieldsChangedLoop_cons _ _ _ _ hbreak,
        extraFieldsChangedLoop_take new_filters rest (index + 1)]

/-- C2: the result of `_extra_fields_changed` depends only on the stored
filters at indices present in the new filter list — the comparison loop
breaks once the index runs past the new list, so the extra-field values
of deleted trailing stored rows never influence whether the
destructive-change confirmation is triggered. -/
theorem extra_fields_changed_ignores_deleted_rows
    (old_filters : List AnkiMorphsConfigFilter) (new_filters : List FilterTypeAlias) :
    extra_fields_changed old_filters new_filters
      = extra_fields_changed (old_filters.take new_filters.length) new_filters := by
  have hloop := extraFieldsChangedLoop_take new_filters old_filters 0
  rw [Nat.sub_zero] at hloop
  simp only [extra_fields_changed]
  rw [hloop]

/-! ### C8 -/

/-- C8: when a row's note-type combo box selection changes to entry `j`,
the connected `_update_fields_cbox` handler leaves the row's field combo
box holding exactly the field names of the newly selected note type, so
the field choice offered always comes from the note type the row names. -/
theorem note_type_change_repopulates_fields (env : Env) (r : NoteFilterRow) (j : Nat) :
    (change_note_type_selection env r j).field_cbox.items
      = env.field_map ((env.models.getD j default).id) ∧
    row_fields_consistent env (change_note_type_selection env r j) :=
  ⟨rfl, rfl⟩

/-! ### C6 -/

/-- C6: each confirmed per-section restore-defaults operation overwrites
only the widgets of its own section with the default configuration's
values, leaving every other widget, both tables, and both configuration
copies exactly as they were. -/
theorem restore_section_defaults_frame (s : DialogState) :
    restore_tags_defaults s false true
      = { s with
          tagReadyLineEdit := s.default_config.tag_ready
          tagNotReadyLineEdit := s.default_config.tag_not_ready
          tagKnownAutomaticallyLineEdit := s.default_config.tag_known_automatically
          tagKnownManuallyLineEdit := s.default_config.tag_known_manually
          tagLearnCardNowLineEdit := s.default_config.tag_learn_card_now } ∧
    restore_parse_defaults s false true
      = { s with
          parseIgnoreSquareCheckBox := s.default_config.parse_ignore_bracket_contents
          parseIgnoreRoundCheckBox := s.default_config.parse_ignore_round_bracket_contents
          parseIgnoreSlimCheckBox := s.default_config.parse_ignore_slim_round_bracket_contents
          parseIgnoreNamesMizerCheckBox := s.default_config.parse_ignore_names_morphemizer
          parseIgnoreNamesFileCheckBox := s.default_config.parse_ignore_names_textfile
          parseIgnoreSuspendedCheckBox := s.default_config.parse_ignore_suspended_cards_content } ∧
    restore_shortcuts_defaults s false true
      = { s with
          shortcutRecalcKeySequenceEdit := s.default_config.shortcut_recalc
          shortcutSettingsKeySequenceEdit := s.default_config.shortcut_settings
          shortcutBrowseReadyKeySequenceEdit := s.default_config.shortcut_browse_ready_same_unknown
          shortcutBrowseAllKeySequenceEdit := s.default_config.shortcut_browse_all_same_unknown
          shortcutKnownAndSkipKeySequenceEdit := s.default_config.shortcut_set_known_and_skip
          shortcutLearnNowKeySequenceEdit := s.default_config.shortcut_learn_now
          shortcutViewMorphsKeySequenceEdit := s.default_config.shortcut_view_morphemes } ∧
    restore_recalc_defaults s false true
      = { s with
          recalcIntervalSpinBox := s.default_config.recalc_interval_for_known
          recalcBeforeSyncCheckBox := s.default_config.recalc_on_sync
          recalcSuspendKnownCheckBox := s.default_config.recalc_suspend_known_new_cards } ∧
    restore_skip_defaults s false true
      = { s with
          skipKnownCheckBox := s.default_config.skip_only_known_morphs_cards
          skipAlreadySeenCheckBox := s.default_config.skip_unknown_morph_seen_today_cards
          skipNotificationsCheckBox := s.default_config.skip_show_num_of_skipped_cards } :=
  ⟨rfl, rfl, rfl, rfl, rfl⟩

/-! ### C7 -/

/-- C7: every destructive action gated by a yes/no confirmation — row
deletion, each per-section reset, and restore-all-defaults — is a
complete no-op on the dialog state when the user answers No; and no
dialog operation other than the explicit save touches the loaded working
configuration copy (the persistent store is only handed a new snapshot
through `save_to_config`, the sole operation that produces one). -/
theorem declined_confirmations_are_no_ops (env : Env) (s : DialogState)
    (skip_confirmation confirmed : Bool) :
    delete_row s false = s ∧
    restore_tags_defaults s false false = s ∧
    restore_parse_defaults s false false = s ∧
    restore_shortcuts_defaults s false false = s ∧
    restore_recalc_defaults s false false = s ∧
    restore_skip_defaults s false false = s ∧
    restore_all_defaults env s false = s ∧
    (delete_row s confirmed).config = s.config ∧
    (add_new_row env s).config = s.config ∧
    (restore_tags_defaults s skip_confirmation confirmed).config = s.config ∧
    (restore_parse_defaults s skip_confirmation confirmed).config = s.config ∧
    (restore_shortcuts_defaults s skip_confirmation confirmed).config = s.config ∧
    (restore_recalc_defaults s skip_confirmation confirmed).config = s.config ∧
    (restore_skip_defaults s skip_confirmation confirmed).config = s.config ∧
    (restore_all_defaults env s confirmed).config = s.config := by
  refine ⟨rfl, rfl, rfl, rfl, rfl, rfl, rfl, ?_, rfl, ?_, ?_, ?_, ?_, ?_, ?_⟩ <;>
    cases confirmed <;> cases skip_confirmation <;> rfl

/-! ### C10 -/

/-- C10: invoking `_delete_row` with no selected row (current row `-1`)
leaves the note-filters table untouched even after the user confirms:
Qt's `removeRow` ignores the out-of-range index. -/
theorem delete_row_no_selection_no_op (s : DialogState)
    (h : s.note_filters_current_row = -1) :
    (delete_row s true).note_filters_table = s.note_filters_table := by
  simp [delete_row, removeRow, h]

/-- C10 witness: the freshly opened sample dialog has no selected row,
and a confirmed delete leaves its table unchanged. -/
theorem delete_row_no_selection_no_op_witness :
    sampleState.note_filters_current_row = -1 ∧
    (delete_row sampleState true).note_filters_table = sampleState.note_filters_table :=
  ⟨by decide, delete_row_no_selection_no_op sampleState (by decide)⟩

/-! ### C5 -/

/-- C5: a confirmed `_delete_row` with a valid selected row removes
exactly that row — the rows before it and after it survive in order —
and the row count drops by one. -/
theorem delete_row_removes_selected (s : DialogState)
    (h0 : 0 ≤ s.note_filters_current_row)
    (h1 : s.note_filters_current_row < (s.note_filters_table.length : Int)) :
    (delete_row s true).note_filters_table
      = s.note_filters_table.take s.note_filters_current_row.toNat ++
          s.note_filters_table.drop (s.note_filters_current_row.toNat + 1) ∧
    (delete_row s true).note_filters_table.length + 1 = s.note_filters_table.length := by
  have hcond : ¬(s.note_filters_current_row < 0 ∨
      (s.note_filters_table.length : Int) ≤ s.note_filters_current_row) := by omega
  have htable : (delete_row s true).note_filters_table
      = s.note_filters_table.take s.note_filters_current_row.toNat ++
          s.note_filters_table.drop (s.note_filters_current_row.toNat + 1) := by
    simp [delete_row, removeRow, hcond]
  refine ⟨htable, ?_⟩
  have hlt : s.note_filters_current_row.toNat < s.note_filters_table.length := by omega
  rw [htable]
  simp [List.length_take, List.length_drop]
  omega

/-- C5 witness: with row 0 of the one-row sample table selected, a
confirmed delete leaves the empty table. -/
theorem delete_row_removes_selected_witness :
    (0 : Int) ≤ selectedRowState.note_filters_current_row ∧
    selectedRowState.note_filters_current_row
      < (selectedRowState.note_filters_table.length : Int) ∧
    ((delete_row selectedRowState true).note_filters_table
      = selectedRowState.note_filters_table.take
          selectedRowState.note_filters_current_row.toNat ++
        selectedRowState.note_filters_table.drop
          (selectedRowState.note_filters_current_row.toNat + 1) ∧
    (delete_row selectedRowState true).note_filters_table.length + 1
      = selectedRowState.note_filters_table.length) :=
  ⟨by decide, by decide,
    delete_row_removes_selected selectedRowState (by decide) (by decide)⟩

/-! ### C4 -/

/-- C4: `_add_new_row` grows the note-filters table by exactly one row,
keeps every pre-existing row's widgets unchanged, and initializes the new
last row from the first filter record of the default configuration. -/
theorem add_new_row_appends_default (env : Env) (s : DialogState)
    (f : AnkiMorphsConfigFilter) (rest : List AnkiMorphsConfigFilter)
    (h : s.default_config.filters = f :: rest) :
    (add_new_row env s).note_filters_table.length = s.note_filters_table.length + 1 ∧
    (add_new_row env s).note_filters_table.take s.note_filters_table.length
      = s.note_filters_table ∧
    (add_new_row env s).note_filters_table.getLast?
      = some (set_note_filters_table_row env f) := by
  refine ⟨?_, ?_, ?_⟩
  · simp [add_new_row]
  · simp [add_new_row, List.take_left]
  · simp [add_new_row, h]

/-- C4 witness: adding a row to the one-row sample dialog yields two
rows, the first unchanged and the second built from the default
configuration's first filter record. -/
theorem add_new_row_appends_default_witness :
    sampleState.default_config.filters = sampleFilter :: [] ∧
    ((add_new_row sampleEnv sampleState).note_filters_table.length
        = sampleState.note_filters_table.length + 1 ∧
    (add_new_row sampleEnv sampleState).note_filters_table.take
        sampleState.note_filters_table.length = sampleState.note_filters_table ∧
    (add_new_row sampleEnv sampleState).note_filters_table.getLast?
        = some (set_note_filters_table_row sampleEnv sampleFilter)) :=
  ⟨by decide,
    add_new_row_appends_default sampleEnv sampleState sampleFilter [] (by decide)⟩

/-! ### C1 -/

theorem extraFieldsChangedLoop_of_differs (new_filters : List FilterTypeAlias) :
    ∀ (old : List AnkiMorphsConfigFilter) (index i : Nat),
      index ≤ i → i - index < old.length → i < new_filters.length →
      extra_fields_row_differs (new_filters.getD i default) (old.getD (i - index) default) →
      extraFieldsChangedLoop new_filters index old = true
  | [], _, _, _, hlt, _, _ => absurd hlt (by simp)
  | o :: rest, index, i, hle, hlt, hnew, hdiff => by
    have hbreak : ¬((new_filters.length : Int) - 1 < (index : Int)) := by omega
    rw [extraFieldsChangedLoop_cons _ _ _ _ hbreak]
    rcases Nat.eq_or_lt_of_le hle with heq | hgt
    · subst heq
      rw [Nat.sub_self, List.getD_cons_zero] at hdiff
      rw [if_pos hdiff]
    · by_cases hc : extra_fields_row_differs (new_filters.getD index default) o
      · rw [if_pos hc]
      · rw [if_neg hc]
        have hlt' : i - index < rest.length + 1 := by simpa using hlt
        have hs : i - index = (i - (index + 1)) + 1 := by omega
        rw [hs, List.getD_cons_succ] at hdiff
        exact extraFieldsChangedLoop_of_differs new_filters rest (index + 1) i hgt
          (by omega) hnew hdiff

theorem extra_fields_changed_of_differs (old_filters : List AnkiMorphsConfigFilter)
    (new_filters : List FilterTypeAlias) (i : Nat) (hold : i < old_filters.length)
    (hnew : i < new_filters.length)
    (hdiff : extra_fields_row_differs (new_filters.getD i default)
      (old_filters.getD i default)) :
    extra_fields_changed old_filters new_filters = true := by
  have hany : (new_filters.any fun f =>
      f.unknowns_field ≠ "(none)" ∨ f.highlighted_field ≠ "(none)" ∨
        f.difficulty_field ≠ "(none)") = true := by
    rw [List.any_eq_true]
    refine ⟨new_filters.getD i default, ?_, ?_⟩
    · rw [List.getD_eq_getElem _ _ hnew]
      exact List.getElem_mem hnew
    · have hor : (new_filters.getD i default).unknowns_field ≠ "(none)" ∨
          (new_filters.getD i default).highlighted_field ≠ "(none)" ∨
          (new_filters.getD i default).difficulty_field ≠ "(none)" := by
        rcases hdiff with ⟨_, h⟩ | ⟨_, h⟩ | ⟨_, h⟩
        · exact Or.inl h
        · exact Or.inr (Or.inl h)
        · exact Or.inr (Or.inr h)
      exact decide_eq_true hor
  have hloop := extraFieldsChangedLoop_of_differs new_filters old_filters 0 i
    (Nat.zero_le i) (by simpa using hold) hnew (by simpa using hdiff)
  simp only [extra_fields_changed]
  rw [hany, hloop]
  rfl

/-- C1 counterexample: the claim speaks of all four extra-field columns,
but `_extra_fields_changed` never looks at `unknowns_count_field`. In the
sample dialog with only the unknowns-count box moved off `"(none)"`, the
saved value differs from the stored one and is not `"(none)"`, yet
`_extra_fields_changed` is `False` and a save with the warning declined
still commits — the confirmation dialog is never raised. -/
theorem unknowns_count_change_not_detected :
    ((build_new_config sampleEnv unknownsCountChangedState).filters.getD 0
        default).unknowns_count_field
      ≠ (unknownsCountChangedState.config.filters.getD 0 default).unknowns_count_field ∧
    ((build_new_config sampleEnv unknownsCountChangedState).filters.getD 0
        default).unknowns_count_field ≠ "(none)" ∧
    extra_fields_changed unknownsCountChangedState.config.filters
      (build_new_config sampleEnv unknownsCountChangedState).filters = false ∧
    save_to_config sampleEnv unknownsCountChangedState false
      = some (build_new_config sampleEnv unknownsCountChangedState) :=
  ⟨by decide, by decide, by decide, by decide⟩

/-- C1 (amended): if, at a row index present both in the stored filter
list and in the newly assembled one, the new `unknowns_field`,
`highlighted_field` or `difficulty_field` differs from the stored value
and is not `"(none)"`, then `_extra_fields_changed` holds — so the
destructive-change confirmation is raised before `update_configs` — and
declining the confirmation makes `_save_to_config` return without
writing the persistent configuration. -/
theorem changed_extra_field_raises_warning (env : Env) (s : DialogState) (i : Nat)
    (hold : i < s.config.filters.length)
    (hnew : i < (build_new_config env s).filters.length)
    (hdiff : extra_fields_row_differs ((build_new_config env s).filters.getD i default)
      (s.config.filters.getD i default)) :
    extra_fields_changed s.config.filters (build_new_config env s).filters = true ∧
    save_to_config env s false = none := by
  have hefc := extra_fields_changed_of_differs s.config.filters
    (build_new_config env s).filters i hold hnew hdiff
  refine ⟨hefc, ?_⟩
  simp [save_to_config, hefc]

/-- C1 witness: in the sample dialog with the unknowns combo box moved
to `"Front"`, the amended claim fires: the warning is raised and a
declined save writes nothing. -/
theorem changed_extra_field_raises_warning_witness :
    0 < unknownsChangedState.config.filters.length ∧
    0 < (build_new_config sampleEnv unknownsChangedState).filters.length ∧
    extra_fields_row_differs
      ((build_new_config sampleEnv unknownsChangedState).filters.getD 0 default)
      (unknownsChangedState.config.filters.getD 0 default) ∧
    (extra_fields_changed unknownsChangedState.config.filters
        (build_new_config sampleEnv unknownsChangedState).filters = true ∧
      save_to_config sampleEnv unknownsChangedState false = none) :=
  ⟨by decide, by decide, by decide,
    changed_extra_field_raises_warning sampleEnv unknownsChangedState 0
      (by decide) (by decide) (by decide)⟩

/-! ### C3 helper lemmas -/

theorem get_combobox_index_spec : ∀ (l : List String) (text : String) (i : Nat),
    get_combobox_index l text = some i → i < l.length ∧ l.getD i "" = text
  | [], _, _, h => by simp [get_combobox_index] at h
  | a :: l, text, i, h => by
    rw [get_combobox_index] at h
    split at h
    next ha =>
      injection h with h'
      subst h'
      exact ⟨Nat.succ_pos _, ha⟩
    next ha =>
      cases hrec : get_combobox_index l text with
      | none => rw [hrec] at h; exact absurd h (by simp)
      | some j =>
        rw [hrec] at h
        injection h with h'
        subst h'
        obtain ⟨hj, hg⟩ := get_combobox_index_spec l text j hrec
        exact ⟨Nat.succ_lt_succ hj, by simpa using hg⟩

theorem get_combobox_index_isSome_of_mem : ∀ {l : List String} {text : String},
    text ∈ l → (get_combobox_index l text).isSome = true
  | a :: l, text, h => by
    rw [get_combobox_index]
    by_cases ha : a = text
    · rw [if_pos ha]; rfl
    · rw [if_neg ha]
      have hmem : text ∈ l := by
        rcases List.mem_cons.mp h with h1 | h1
        · exact absurd h1.symm ha
        · exact h1
      have hrec := get_combobox_index_isSome_of_mem hmem
      cases hg : get_combobox_index l text with
      | none => rw [hg] at hrec; simp at hrec
      | some j => rfl

theorem get_combobox_index_none_of_not_mem {l : List String} {text : String}
    (h : text ∉ l) : get_combobox_index l text = none := by
  cases hg : get_combobox_index l text with
  | none => rfl
  | some i =>
    obtain ⟨hi, hget⟩ := get_combobox_index_spec l text i hg
    refine absurd ?_ h
    rw [← hget, List.getD_eq_getElem _ _ hi]
    exact List.getElem_mem hi

theorem get_model_combobox_index_spec :
    ∀ (l : List NotetypeNameId) (f : String) (i : Nat),
      get_model_combobox_index l f = some i → i < l.length ∧ (l.getD i default).name = f
  | [], _, _, h => by simp [get_model_combobox_index] at h
  | a :: l, f, i, h => by
    rw [get_model_combobox_index] at h
    split at h
    next ha =>
      injection h with h'
      subst h'
      exact ⟨Nat.succ_pos _, ha⟩
    next ha =>
      cases hrec : get_model_combobox_index l f with
      | none => rw [hrec] at h; exact absurd h (by simp)
      | some j =>
        rw [hrec] at h
        injection h with h'
        subst h'
        obtain ⟨hj, hg⟩ := get_model_combobox_index_spec l f j hrec
        exact ⟨Nat.succ_lt_succ hj, by simpa using hg⟩

theorem getD_map_name (l : List NotetypeNameId) (i : Nat) (h : i < l.length) :
    (l.map (·.name)).getD i "" = (l.getD i default).name := by
  rw [List.getD_eq_getElem _ _ (by simpa using h), List.getD_eq_getElem _ _ h]
  simp

/-- In a filter list with pairwise distinct note-type names, the first
filter whose note type matches a member's is that member itself. -/
theorem find?_note_type_eq : ∀ (l : List AnkiMorphsConfigFilter)
    (cf : AnkiMorphsConfigFilter), cf ∈ l → (l.map (·.note_type)).Nodup →
    l.find? (fun c => cf.note_type = c.note_type) = some cf
  | [], cf, hmem, _ => absurd hmem (List.not_mem_nil cf)
  | d :: ds, cf, hmem, hnodup => by
    simp only [List.map_cons, List.nodup_cons] at hnodup
    obtain ⟨hd, hnd⟩ := hnodup
    by_cases hface : cf.note_type = d.note_type
    · rcases List.mem_cons.mp hmem with hcd | hcd
      · subst hcd
        exact List.find?_cons_of_pos _ (by simp)
      · exfalso
        apply hd
        rw [← hface]
        exact List.mem_map_of_mem _ hcd
    · have hcd : cf ∈ ds := by
        rcases List.mem_cons.mp hmem with h1 | h1
        · exact absurd (by rw [h1]) hface
        · exact h1
      rw [List.find?_cons_of_neg _ (by simpa using hface)]
      exact find?_note_type_eq ds cf hcd hnd

/-- Selecting a member string in a freshly populated combo box and
reading the current text back returns that string. -/
theorem simple_cbox_roundtrip (items : List String) (x : String) (hx : x ∈ items) :
    ((⟨items, (get_combobox_index items x).getD 0⟩ : QComboBox).itemText
      ((⟨items, (get_combobox_index items x).getD 0⟩ : QComboBox).currentIndex)) = x := by
  cases hg : get_combobox_index items x with
  | none =>
    have := get_combobox_index_isSome_of_mem hx
    rw [hg] at this
    simp at this
  | some i =>
    obtain ⟨_, hget⟩ := get_combobox_index_spec items x i hg
    simpa [QComboBox.itemText, hg] using hget

/-- Reading the morph-priority combo box back returns the stored
priority, provided it is `"Collection frequency"` or a frequency file. -/
theorem priority_cbox_roundtrip (files : List String) (x : String)
    (hx : x = "Collection frequency" ∨ x ∈ files) :
    ((⟨"Collection frequency" :: files,
        ((get_combobox_index files x).map (· + 1)).getD 0⟩ : QComboBox).itemText
      ((⟨"Collection frequency" :: files,
        ((get_combobox_index files x).map (· + 1)).getD 0⟩ : QComboBox).currentIndex)) = x := by
  cases hg : get_combobox_index files x with
  | none =>
    rcases hx with hx | hx
    · subst hx
      simp [QComboBox.itemText, hg]
    · have := get_combobox_index_isSome_of_mem hx
      rw [hg] at this
      simp at this
  | some i =>
    obtain ⟨_, hget⟩ := get_combobox_index_spec files x i hg
    simpa [QComboBox.itemText, hg] using hget

/-- Reading an extra-field combo box back returns the stored choice,
provided it is `"(none)"` or one of the note type's fields. -/
theorem extra_cbox_roundtrip (fields : List String) (x : String)
    (hx : x = "(none)" ∨ x ∈ fields) :
    ((set_extra_field_cbox_index (create_extra_field_cbox fields) fields x).itemText
      ((set_extra_field_cbox_index (create_extra_field_cbox fields) fields x).currentIndex))
      = x := by
  cases hg : get_combobox_index fields x with
  | none =>
    rcases hx with hx | hx
    · subst hx
      simp [set_extra_field_cbox_index, create_extra_field_cbox, QComboBox.itemText, hg]
    · have := get_combobox_index_isSome_of_mem hx
      rw [hg] at this
      simp at this
  | some i =>
    obtain ⟨_, hget⟩ := get_combobox_index_spec fields x i hg
    simpa [set_extra_field_cbox_index, create_extra_field_cbox, QComboBox.itemText, hg]
      using hget

theorem extraFieldsChangedLoop_agree (new_filters : List FilterTypeAlias) :
    ∀ (old : List AnkiMorphsConfigFilter) (index : Nat),
      (∀ j, j < old.length → index + j < new_filters.length →
        three_extra_fields_agree (new_filters.getD (index + j) default)
          (old.getD j default)) →
      extraFieldsChangedLoop new_filters index old = false
  | [], _, _ => rfl
  | o :: rest, index, h => by
    by_cases hbreak : (new_filters.length : Int) - 1 < (index : Int)
    · exact extraFieldsChangedLoop_break _ _ _ _ hbreak
    · rw [extraFieldsChangedLoop_cons _ _ _ _ hbreak]
      have hidx : index < new_filters.length := by omega
      have h0 := h 0 (Nat.succ_pos _) (by omega)
      rw [Nat.add_zero, List.getD_cons_zero] at h0
      obtain ⟨h1, h2, h3⟩ := h0
      rw [if_neg ?hnd]
      case hnd =>
        intro hd
        rcases hd with ⟨hne, _⟩ | ⟨hne, _⟩ | ⟨hne, _⟩
        exacts [hne h1, hne h2, hne h3]
      apply extraFieldsChangedLoop_agree new_filters rest (index + 1)
      intro j hj hlen
      have heq : index + 1 + j = index + (j + 1) := by omega
      rw [heq]
      have := h (j + 1) (Nat.succ_lt_succ hj) (by omega)
      rw [List.getD_cons_succ] at this
      exact this

/-- When the new and stored filters agree on the three compared extra
fields at every index present in both lists, `_extra_fields_changed`
yields `False`. -/
theorem extra_fields_changed_of_agree (old_filters : List AnkiMorphsConfigFilter)
    (new_filters : List FilterTypeAlias)
    (h : ∀ j, j < old_filters.length → j < new_filters.length →
      three_extra_fields_agree (new_filters.getD j default) (old_filters.getD j default)) :
    extra_fields_changed old_filters new_filters = false := by
  have hloop := extraFieldsChangedLoop_agree new_filters old_filters 0 (by
    intro j hj hlen
    rw [Nat.zero_add] at hlen ⊢
    exact h j hj hlen)
  simp only [extra_fields_changed]
  rw [hloop, ite_self]

/-- Core of the save round-trip: for a consistent filter record that has
the only occurrence of its note type in the filter list, building its
note-filters row and extra-fields row and reading them back through
`_save_to_config` restores the record. -/
theorem read_set_row_roundtrip (env : Env) (config_filters : List AnkiMorphsConfigFilter)
    (cf : AnkiMorphsConfigFilter) (hcons : filter_env_consistent env cf)
    (hmem : cf ∈ config_filters)
    (hnodup : (config_filters.map (·.note_type)).Nodup) :
    (read_filter_row env (set_note_filters_table_row env cf)
      (set_extra_fields_table_row env (set_note_filters_table_row env cf)
        config_filters)).toConfigFilter = cf := by
  obtain ⟨hsome, hfield, hmizer, hprio, hunk, hunkc, hhigh, hdiffc⟩ := hcons
  cases hgm : get_model_combobox_index env.models cf.note_type with
  | none => rw [hgm] at hsome; simp at hsome
  | some mi =>
  obtain ⟨hmi, hname⟩ := get_model_combobox_index_spec env.models cf.note_type mi hgm
  have hrf : resolved_fields env cf
      = env.field_map ((env.models.getD mi default).id) := by
    rw [resolved_fields, hgm]
    rfl
  rw [hrf] at hfield hunk hunkc hhigh hdiffc
  have hrow : set_note_filters_table_row env cf
      = { note_type_cbox := ⟨env.models.map (·.name), mi⟩
          tags_item := cf.tags
          field_cbox :=
            ⟨env.field_map ((env.models.getD mi default).id),
              (get_combobox_index (env.field_map ((env.models.getD mi default).id))
                cf.field).getD 0⟩
          morphemizer_cbox :=
            ⟨env.morphemizers.map (·.description),
              (get_combobox_index (env.morphemizers.map (·.description))
                cf.morphemizer_description).getD 0⟩
          morph_priority_cbox :=
            ⟨"Collection frequency" :: env.frequency_files,
              ((get_combobox_index env.frequency_files cf.morph_priority).map
                (· + 1)).getD 0⟩
          read_checkbox := cf.read
          modify_checkbox := cf.modify } := by
    simp [set_note_filters_table_row, hgm]
  have hnt : (env.models.map (·.name)).getD mi "" = cf.note_type := by
    rw [getD_map_name env.models mi hmi, hname]
  have hfind : config_filters.find? (fun c => cf.note_type = c.note_type) = some cf :=
    find?_note_type_eq config_filters cf hmem hnodup
  have hef : set_extra_fields_table_row env (set_note_filters_table_row env cf)
      config_filters
      = { note_type_item := cf.note_type
          unknowns_cbox :=
            set_extra_field_cbox_index
              (create_extra_field_cbox (env.field_map ((env.models.getD mi default).id)))
              (env.field_map ((env.models.getD mi default).id)) cf.unknowns_field
          unknowns_count_cbox :=
            set_extra_field_cbox_index
              (create_extra_field_cbox (env.field_map ((env.models.getD mi default).id)))
              (env.field_map ((env.models.getD mi default).id)) cf.unknowns_count_field
          highlighted_cbox :=
            set_extra_field_cbox_index
              (create_extra_field_cbox (env.field_map ((env.models.getD mi default).id)))
              (env.field_map ((env.models.getD mi default).id)) cf.highlighted_field
          difficulty_cbox :=
            set_extra_field_cbox_index
              (create_extra_field_cbox (env.field_map ((env.models.getD mi default).id)))
              (env.field_map ((env.models.getD mi default).id)) cf.difficulty_field } := by
    rw [hrow]
    simp only [set_extra_fields_table_row, QComboBox.itemText]
    simp only [hnt, hfind]
  rw [hef, hrow]
  simp only [read_filter_row, FilterTypeAlias.toConfigFilter]
  obtain ⟨nt, tg, fl, md, mp, rd, mo, uf, ucf, hfd, dfd⟩ := cf
  simp only [AnkiMorphsConfigFilter.mk.injEq]
  refine ⟨?_, trivial, ?_, ?_, ?_, trivial, trivial, ?_, ?_, ?_, ?_⟩
  · exact hnt
  · exact simple_cbox_roundtrip _ fl hfield
  · exact simple_cbox_roundtrip _ md hmizer
  · exact priority_cbox_roundtrip _ mp hprio
  · exact extra_cbox_roundtrip _ uf hunk
  · exact extra_cbox_roundtrip _ ucf hunkc
  · exact extra_cbox_roundtrip _ hfd hhigh
  · exact extra_cbox_roundtrip _ dfd hdiffc

/-! ### C3 -/

/-- C3 counterexample: the claim quantifies over every configuration
snapshot, but when a filter names a note type absent from the host
catalog the note-type combo box silently falls back to the catalog's
first entry, and the saved snapshot differs from the loaded one. -/
theorem save_roundtrip_fails_on_unresolved_note_type :
    (save_to_config sampleEnv
      (dialog_init sampleEnv missingNoteTypeConfig missingNoteTypeConfig) false).map
        NewConfigData.toSnapshot ≠ some missingNoteTypeConfig := by
  decide

/-- C3 (amended): for every configuration snapshot consistent with the
host environment — each filter's note type resolves in the catalog, its
field / morphemizer / priority / extra-field choices are among the
offered entries, and the filters name pairwise distinct note types —
opening the dialog and saving without touching any widget hands
`update_configs` a snapshot equal to the loaded one, without raising the
extra-fields warning. -/
theorem save_roundtrip (env : Env) (config default_config : AnkiMorphsConfig)
    (h : config_env_consistent env config) :
    (save_to_config env (dialog_init env config default_config) false).map
      NewConfigData.toSnapshot = some config := by
  obtain ⟨hall, hnodup⟩ := h
  have hfilters : (build_new_config env (dialog_init env config default_config)).filters
      = config.filters.map (fun cf =>
          read_filter_row env (set_note_filters_table_row env cf)
            (set_extra_fields_table_row env (set_note_filters_table_row env cf)
              config.filters)) := by
    simp only [build_new_config, dialog_init, setup_note_filters_table,
      setup_extra_fields_table, List.map_map, List.zip_map', Function.comp]
    rfl
  have hsnap : (build_new_config env
        (dialog_init env config default_config)).filters.map FilterTypeAlias.toConfigFilter
      = config.filters := by
    rw [hfilters, List.map_map]
    have hcong : ∀ cf ∈ config.filters,
        (FilterTypeAlias.toConfigFilter ∘ fun cf =>
          read_filter_row env (set_note_filters_table_row env cf)
            (set_extra_fields_table_row env (set_note_filters_table_row env cf)
              config.filters)) cf = id cf := by
      intro cf hcf
      exact read_set_row_roundtrip env config.filters cf (hall cf hcf) hcf hnodup
    rw [List.map_congr_left hcong, List.map_id]
  have hlen : config.filters.length
      = (build_new_config env (dialog_init env config default_config)).filters.length := by
    rw [← hsnap, List.length_map]
  have hagree : ∀ j, j < config.filters.length →
      j < (build_new_config env (dialog_init env config default_config)).filters.length →
      three_extra_fields_agree
        ((build_new_config env (dialog_init env config default_config)).filters.getD j
          default)
        (config.filters.getD j default) := by
    intro j hj hj2
    have hcomp : FilterTypeAlias.toConfigFilter
        ((build_new_config env (dialog_init env config default_config)).filters.getD j
          default)
        = config.filters.getD j default := by
      conv_rhs => rw [← hsnap]
      rw [List.getD_eq_getElem _ _ hj2,
        List.getD_eq_getElem _ _ (by rw [List.length_map]; exact hj2)]
      simp
    exact ⟨by rw [← hcomp]; rfl, by rw [← hcomp]; rfl, by rw [← hcomp]; rfl⟩
  have hefc : extra_fields_changed
      (dialog_init env config default_config).config.filters
      (build_new_config env (dialog_init env config default_config)).filters = false :=
    extra_fields_changed_of_agree _ _ hagree
  have hsave : save_to_config env (dialog_init env config default_config) false
      = some (build_new_config env (dialog_init env config default_config)) := by
    simp only [save_to_config]
    rw [hefc]
    rfl
  have hfinal : NewConfigData.toSnapshot
      (build_new_config env (dialog_init env config default_config)) = config := by
    unfold NewConfigData.toSnapshot
    rw [hsnap]
    exact rfl
  rw [hsave, Option.map_some', hfinal]

/-- C3 witness: the consistent `richConfig` round-trips exactly through
the sample dialog. -/
theorem save_roundtrip_witness :
    config_env_consistent sampleEnv richConfig ∧
    (save_to_config sampleEnv (dialog_init sampleEnv richConfig sampleConfig) false).map
      NewConfigData.toSnapshot = some richConfig :=
  ⟨by decide, save_roundtrip sampleEnv richConfig sampleConfig (by decide)⟩

end AnkiMorphs
